import Mathlib

/- Verification development for the britishpennies provisioning scripts
   (scripts/google_setup.py and e2b-britishpennies/scripts/setup_google_tools.py).
   The Python functions are shallowly embedded as Lean functions; the remote
   Google API state is modelled explicitly and every mutating remote call is
   recorded in a trace.  Provider-assigned identifiers (property resource names
   and measurement IDs of creation responses) are modelled by a fresh-id counter
   carried in the remote state, mirroring the external service assigning
   identifiers the client has never seen. -/

namespace BritishPennies

/-- Python substring test: charListHas needle hay decides whether needle occurs
    as a contiguous sublist of hay, the semantics of Python's in operator on
    strings (code points). -/
def charListHas (needle : List Char) : List Char → Bool
  | [] => needle.isEmpty
  | c :: t => needle.isPrefixOf (c :: t) || charListHas needle t

/-- Python s1 in s2 on strings. -/
def strContains (hay needle : String) : Bool := charListHas needle.data hay.data

/-- Python str.lower (ASCII-relevant part; the strings involved are ASCII). -/
def lowerStr (s : String) : String := String.mk (s.data.map Char.toLower)

/-- Python s.replace(c, '') for a single-character pattern: removes every
    occurrence of the character. -/
def removeChar (c : Char) (s : String) : String := String.mk (s.data.filter (fun x => x != c))

/-- Normalisation applied by google_setup.py (line 104) to a property display
    name before matching: display_name.lower().replace(' ', '').replace('.', ''). -/
def gsNorm (s : String) : String := removeChar '.' (removeChar ' ' (lowerStr s))

/-- Key used by google_setup.py (line 104) for the domain: domain.replace('.', ''). -/
def gsDomainKey (d : String) : String := removeChar '.' d

/-- Python str.endswith on code-point lists. -/
def listEndsWith (l suffix : List Char) : Bool :=
  decide (List.drop (l.length - suffix.length) l = suffix)

/-- Python str.endswith. -/
def strEndsWith (s suffix : String) : Bool := listEndsWith s.data suffix.data

/-- Web stream data of a GA4 data stream (defaultUri, measurementId). -/
structure WebStreamData where
  defaultUri : String
  measurementId : String
deriving DecidableEq

/-- A GA4 data stream; webStreamData is none for non-web streams (and models
    Python falsy/absent web_stream_data). -/
structure DataStream where
  displayName : String
  webStreamData : Option WebStreamData
deriving DecidableEq

/-- A GA4 analytics property as the scripts see it: a provider-assigned resource
    name and a display name. -/
structure AnalyticsProperty where
  name : String
  displayName : String
deriving DecidableEq

/-- A property together with the data streams the remote service holds under it. -/
structure PropertyNode where
  prop : AnalyticsProperty
  streams : List DataStream
deriving DecidableEq

/-- Remote analytics state under the single account the scripts use: the list of
    properties (listing order = the order list calls return) plus the provider's
    fresh-identifier counter. -/
structure RemoteState where
  props : List PropertyNode
  nextId : Nat
deriving DecidableEq

/-- Trace entry for each mutating remote call, carrying the creation response. -/
inductive ApiCall where
  | createProperty (p : AnalyticsProperty)
  | createDataStream (parent : String) (s : DataStream)
  | addSite (url : String)
deriving DecidableEq

def isCreatePropertyCall : ApiCall → Bool
  | .createProperty _ => true
  | _ => false

def isCreateStreamCall : ApiCall → Bool
  | .createDataStream _ _ => true
  | _ => false

/-- google_setup.py line 104: a property matches the domain when
    domain.replace('.','') occurs in the normalised display name. -/
def gsPropMatch (d : String) (p : AnalyticsProperty) : Bool :=
  strContains (gsNorm p.displayName) (gsDomainKey d)

/-- google_setup.py line 125: hasattr(s, 'web_stream_data') and s.web_stream_data.
    Any stream carrying (truthy) web stream data matches, irrespective of the
    domain being processed. -/
def gsStreamMatch (_d : String) (s : DataStream) : Bool := s.webStreamData.isSome

def streamUri (s : DataStream) : String :=
  match s.webStreamData with
  | some w => w.defaultUri
  | none => ""

def streamMid (s : DataStream) : String :=
  match s.webStreamData with
  | some w => w.measurementId
  | none => ""

/-- setup_google_tools.py line 103: domain in prop.get('displayName', ''). -/
def toolsPropMatch (d : String) (p : AnalyticsProperty) : Bool := strContains p.displayName d

/-- setup_google_tools.py line 131:
    stream.get('webStreamData', {}).get('defaultUri', '').endswith(domain). -/
def toolsStreamMatch (d : String) (s : DataStream) : Bool := strEndsWith (streamUri s) d

/-- Provider-assigned resource name for a newly created property. -/
def freshPropName (n : Nat) : String := "properties/" ++ toString n

/-- Provider-assigned measurement ID for a newly created web data stream. -/
def freshMid (n : Nat) : String := "G-" ++ toString n

/-- Creation-request attributes used by both scripts for a new property:
    display_name = f"British Pennies ({domain})" (with time zone and currency,
    which the reconciliation logic never reads), plus the provider response name. -/
def newProperty (n : Nat) (d : String) : AnalyticsProperty :=
  { name := freshPropName n, displayName := "British Pennies (" ++ d ++ ")" }

/-- Creation-request attributes used by both scripts for a new web data stream:
    display_name = f"{domain} Web Stream", default_uri = f"https://{domain}",
    plus the provider-assigned measurement ID of the response. -/
def newStream (n : Nat) (d : String) : DataStream :=
  { displayName := d ++ " Web Stream",
    webStreamData := some { defaultUri := "https://" ++ d, measurementId := freshMid n } }

/-- Replace the first occurrence of a value in a list (used to attach a created
    stream to the property it was created under; remote property resource names
    are unique, so the first value occurrence is that property). -/
def replaceFirst {α : Type} [DecidableEq α] : List α → α → α → List α
  | [], _, _ => []
  | x :: t, old, nw => if x = old then nw :: t else x :: replaceFirst t old nw

/-- Outcome of processing one domain in setup_analytics: the new remote state,
    the mutating remote calls issued, and the measurement ID recorded in
    measurement_ids for the domain. -/
structure StepOut where
  state : RemoteState
  calls : List ApiCall
  mid : String
deriving DecidableEq

/-- A freshly created property as the remote service then holds it: no streams yet. -/
def newNode (n : Nat) (d : String) : PropertyNode :=
  { prop := newProperty n d, streams := [] }

/-- A property node after a stream was created under it. -/
def grownNode (node : PropertyNode) (s : DataStream) : PropertyNode :=
  { node with streams := node.streams ++ [s] }

/-- The property-matching loop of setup_analytics: first listed property that
    satisfies the match predicate (break on first hit). -/
def selectProp (propMatch : String → AnalyticsProperty → Bool) (d : String)
    (props : List PropertyNode) : Option PropertyNode :=
  props.find? (fun n => propMatch d n.prop)

/-- The data-stream half of one setup_analytics iteration: list the property's
    streams, take the first match, otherwise issue one create_data_stream call
    and record the measurement ID from its response. -/
def streamPhase (streamMatch : String → DataStream → Bool) (d : String)
    (node : PropertyNode) (st : RemoteState) (calls0 : List ApiCall) : StepOut :=
  match node.streams.find? (streamMatch d) with
  | some s => { state := st, calls := calls0, mid := streamMid s }
  | none =>
      let s := newStream st.nextId d
      { state := { props := replaceFirst st.props node (grownNode node s),
                   nextId := st.nextId + 1 },
        calls := calls0 ++ [ApiCall.createDataStream node.prop.name s],
        mid := streamMid s }

/-- One iteration of the setup_analytics domain loop (generic in the two match
    predicates, which is where the two scripts differ; everything else is
    line-for-line identical). -/
def domainStep (propMatch : String → AnalyticsProperty → Bool)
    (streamMatch : String → DataStream → Bool) (d : String) (st : RemoteState) : StepOut :=
  match selectProp propMatch d st.props with
  | some node => streamPhase streamMatch d node st []
  | none =>
      streamPhase streamMatch d (newNode st.nextId d)
        { props := st.props ++ [newNode st.nextId d], nextId := st.nextId + 1 }
        [ApiCall.createProperty (newProperty st.nextId d)]

/-- setup_analytics iteration of scripts/google_setup.py. -/
def gsDomainStep (d : String) (st : RemoteState) : StepOut :=
  domainStep gsPropMatch gsStreamMatch d st

/-- setup_analytics iteration of e2b-britishpennies/scripts/setup_google_tools.py. -/
def toolsDomainStep (d : String) (st : RemoteState) : StepOut :=
  domainStep toolsPropMatch toolsStreamMatch d st

/-- The full error-free setup_analytics domain loop: final state, concatenated
    call trace, and the measurement_ids mapping as an insertion-ordered
    association list (matching a Python dict over distinct keys). -/
def runDomains (propMatch : String → AnalyticsProperty → Bool)
    (streamMatch : String → DataStream → Bool) :
    List String → RemoteState → RemoteState × List ApiCall × List (String × String)
  | [], st => (st, [], [])
  | d :: ds, st =>
      let r := domainStep propMatch streamMatch d st
      let rest := runDomains propMatch streamMatch ds r.state
      (rest.1, r.calls ++ rest.2.1, (d, r.mid) :: rest.2.2)

def gsRun (domains : List String) (st : RemoteState) :
    RemoteState × List ApiCall × List (String × String) :=
  runDomains gsPropMatch gsStreamMatch domains st

def toolsRun (domains : List String) (st : RemoteState) :
    RemoteState × List ApiCall × List (String × String) :=
  runDomains toolsPropMatch toolsStreamMatch domains st

def DOMAINS : List String := ["britishpennies.com", "britishpennies.org"]

/- Error-aware executions.  An oracle err : ApiCall -> Bool says which mutating
   remote calls raise (listing calls are modelled as succeeding; a raising
   creation call is still recorded in the trace, since it was issued).  Neither
   script has a try/except inside the setup_analytics domain loop, so a raise
   aborts the loop: in google_setup.py the exception propagates out of
   setup_analytics and out of main; in setup_google_tools.py it is caught by the
   function-level handler, which logs it and returns None.  Both are the
   abort-with-none outcome below. -/

/-- Stream half of a setup_analytics iteration with a failure oracle. -/
def streamPhaseE (streamMatch : String → DataStream → Bool) (err : ApiCall → Bool)
    (d : String) (node : PropertyNode) (st : RemoteState) (calls0 : List ApiCall) :
    List ApiCall × Option (RemoteState × String) :=
  match node.streams.find? (streamMatch d) with
  | some s => (calls0, some (st, streamMid s))
  | none =>
      let s := newStream st.nextId d
      let call := ApiCall.createDataStream node.prop.name s
      if err call then (calls0 ++ [call], none)
      else (calls0 ++ [call],
        some ({ props := replaceFirst st.props node (grownNode node s),
                nextId := st.nextId + 1 }, streamMid s))

/-- One setup_analytics iteration with a failure oracle. -/
def domainStepE (propMatch : String → AnalyticsProperty → Bool)
    (streamMatch : String → DataStream → Bool) (err : ApiCall → Bool)
    (d : String) (st : RemoteState) : List ApiCall × Option (RemoteState × String) :=
  match selectProp propMatch d st.props with
  | some node => streamPhaseE streamMatch err d node st []
  | none =>
      let call := ApiCall.createProperty (newProperty st.nextId d)
      if err call then ([call], none)
      else streamPhaseE streamMatch err d (newNode st.nextId d)
        { props := st.props ++ [newNode st.nextId d], nextId := st.nextId + 1 } [call]

/-- The setup_analytics domain loop with a failure oracle: a raise inside any
    iteration aborts the loop, discarding the measurement_ids accumulated so far
    (the dict is a local of the aborted function). -/
def runDomainsE (propMatch : String → AnalyticsProperty → Bool)
    (streamMatch : String → DataStream → Bool) (err : ApiCall → Bool) :
    List String → RemoteState → List ApiCall × Option (RemoteState × List (String × String))
  | [], st => ([], some (st, []))
  | d :: ds, st =>
      match domainStepE propMatch streamMatch err d st with
      | (cs, none) => (cs, none)
      | (cs, some (st', mid)) =>
          match runDomainsE propMatch streamMatch err ds st' with
          | (cs2, none) => (cs ++ cs2, none)
          | (cs2, some (st2, ms)) => (cs ++ cs2, some (st2, (d, mid) :: ms))

def gsRunE (err : ApiCall → Bool) (domains : List String) (st : RemoteState) :
    List ApiCall × Option (RemoteState × List (String × String)) :=
  runDomainsE gsPropMatch gsStreamMatch err domains st

def toolsRunE (err : ApiCall → Bool) (domains : List String) (st : RemoteState) :
    List ApiCall × Option (RemoteState × List (String × String)) :=
  runDomainsE toolsPropMatch toolsStreamMatch err domains st

/- Search console.  Both scripts call service.sites().add(siteUrl=...) for every
   domain unconditionally, inside a per-domain try/except; the verification
   status lookup that follows is wrapped in try/except pass and has no
   observable effect on the modelled outcomes. -/

/-- Console outcome of one search-console registration attempt. -/
inductive ScEvent where
  | added (url : String)
  | warnedAlready (url : String)
  | errorLogged (url : String) (msg : String)
deriving DecidableEq

/-- google_setup.py line 165: 'already' in str(e).lower(). -/
def gsScClassify (msg : String) : Bool := strContains (lowerStr msg) "already"

/-- setup_google_tools.py line 176:
    'already exists' in str(e).lower() or '403' in str(e). -/
def toolsScClassify (msg : String) : Bool :=
  strContains (lowerStr msg) "already exists" || strContains msg "403"

def siteUrlOf (d : String) : String := "https://" ++ d ++ "/"

/-- Body of one setup_search_console iteration: classify the outcome of the add
    call for the domain's site URL (err url = some msg means the add call for
    that site raised with message msg; the raise is caught inside the loop body). -/
def scStep (classify : String → Bool) (err : String → Option String) (d : String) : ScEvent :=
  match err (siteUrlOf d) with
  | none => ScEvent.added (siteUrlOf d)
  | some msg =>
      if classify msg then ScEvent.warnedAlready (siteUrlOf d)
      else ScEvent.errorLogged (siteUrlOf d) msg

def scRun (classify : String → Bool) (err : String → Option String) :
    List String → List ApiCall × List ScEvent
  | [] => ([], [])
  | d :: ds =>
      let rest := scRun classify err ds
      (ApiCall.addSite (siteUrlOf d) :: rest.1, scStep classify err d :: rest.2)

def gsScRun (err : String → Option String) (domains : List String) :
    List ApiCall × List ScEvent :=
  scRun gsScClassify err domains

def toolsScRun (err : String → Option String) (domains : List String) :
    List ApiCall × List ScEvent :=
  scRun toolsScClassify err domains

/-- Modelled external API behaviour: Search Console rejects the registration of
    an already-registered site with an error whose message says it already
    exists; registration of a new site succeeds. -/
def dupOracle (sites : List String) (url : String) : Option String :=
  if url ∈ sites then some "Site already exists." else none

/- Credentials (get_credentials of both scripts; control flow is identical).
   The token file is modelled by its parsed content.  google_setup.py has no
   existence check on its client-secret file, so a missing file surfaces as a
   FileNotFoundError from open(); setup_google_tools.py checks and returns None.
   Both are the distinguished authRequired failure outcome below, reached
   before any interactive flow. -/

/-- An OAuth credential as the scripts observe it: the google-auth valid and
    expired flags, the truthiness of refresh_token, and a tag distinguishing
    credential values. -/
structure Cred where
  valid : Bool
  expired : Bool
  hasRefreshToken : Bool
  tag : Nat
deriving DecidableEq

/-- Modelled external library behaviour (google-auth Credentials.refresh): a
    successful non-interactive refresh yields a valid, non-expired credential. -/
def refreshCred (c : Cred) : Cred := { c with valid := true, expired := false }

/-- Filesystem state get_credentials reads and writes: the token file (none if
    absent, otherwise its parsed credential) and whether the client-secret file
    exists. -/
structure AuthState where
  tokenFile : Option Cred
  clientSecret : Bool
deriving DecidableEq

/-- Result of get_credentials: a credential, or the distinguished failure when
    no client secret is stored (return None in setup_google_tools.py, the
    FileNotFoundError from open(CREDS_FILE) in google_setup.py). -/
inductive CredResult where
  | ok (c : Cred)
  | authRequired
deriving DecidableEq

/-- Observable outcome of one get_credentials call: its result, the filesystem
    state afterwards, whether the interactive flow (run_local_server) ran, and
    whether the token file was written. -/
structure AuthOut where
  result : CredResult
  state : AuthState
  interactive : Bool
  wroteToken : Bool
deriving DecidableEq

/-- Shallow embedding of get_credentials (google_setup.py lines 34-73 and
    setup_google_tools.py lines 42-71): load the token file if present; if the
    credential is missing or not valid, refresh it when it is expired and has a
    refresh token, otherwise run the interactive flow (whose resulting
    credential is the flowCred parameter) provided the client secret exists;
    after either branch write the token file. -/
def getCredentials (flowCred : Cred) (st : AuthState) : AuthOut :=
  match st.tokenFile with
  | some c =>
      if c.valid then
        { result := .ok c, state := st, interactive := false, wroteToken := false }
      else if c.expired && c.hasRefreshToken then
        { result := .ok (refreshCred c), state := { st with tokenFile := some (refreshCred c) },
          interactive := false, wroteToken := true }
      else if st.clientSecret then
        { result := .ok flowCred, state := { st with tokenFile := some flowCred },
          interactive := true, wroteToken := true }
      else
        { result := .authRequired, state := st, interactive := false, wroteToken := false }
  | none =>
      if st.clientSecret then
        { result := .ok flowCred, state := { st with tokenFile := some flowCred },
          interactive := true, wroteToken := true }
      else
        { result := .authRequired, state := st, interactive := false, wroteToken := false }

/- JSON persistence.  json.dump(measurement_ids, f, indent=2) over a flat
   string-to-string dict; the model emits the exact indent=2 layout, without
   escaping (faithful for strings free of quotes, backslashes and control
   characters, which safeStr below captures).  parseJson is an independent JSON
   reader for flat string objects, whitespace-tolerant between tokens. -/

def lbrace : Char := Char.ofNat 123

def rbrace : Char := Char.ofNat 125

def dumpEntryL (e : String × String) : List Char :=
  '"' :: e.1.data ++ '"' :: ':' :: ' ' :: '"' :: e.2.data ++ ['"']

def dumpBody : List (String × String) → List Char
  | [] => []
  | [e] => dumpEntryL e
  | e :: e2 :: t => dumpEntryL e ++ ',' :: '\n' :: ' ' :: ' ' :: dumpBody (e2 :: t)

def dumpJsonL : List (String × String) → List Char
  | [] => [lbrace, rbrace]
  | e :: t => lbrace :: '\n' :: ' ' :: ' ' :: dumpBody (e :: t) ++ ['\n', rbrace]

/-- Content json.dump(d, f, indent=2) writes for a flat string dict given as an
    insertion-ordered association list. -/
def dumpJson (l : List (String × String)) : String := String.mk (dumpJsonL l)

def isWsChar (c : Char) : Bool := c == ' ' || c == '\n' || c == '\t' || c == '\r'

def skipWs : List Char → List Char
  | [] => []
  | c :: t => if isWsChar c then skipWs t else c :: t

def parseStrL : List Char → Option (String × List Char)
  | [] => none
  | c :: t =>
      if c = '"' then
        match t.dropWhile (fun x => x != '"') with
        | _ :: rest => some (String.mk (t.takeWhile (fun x => x != '"')), rest)
        | [] => none
      else none

def parseEntryL (l : List Char) : Option ((String × String) × List Char) :=
  match parseStrL (skipWs l) with
  | none => none
  | some (k, r1) =>
      match skipWs r1 with
      | c :: r2 =>
          if c = ':' then
            match parseStrL (skipWs r2) with
            | none => none
            | some (v, r3) => some ((k, v), r3)
          else none
      | [] => none

def parseEntriesL : Nat → List Char → Option (List (String × String) × List Char)
  | 0, _ => none
  | fuel + 1, l =>
      match parseEntryL l with
      | none => none
      | some (e, r) =>
          match skipWs r with
          | c :: r2 =>
              if c = ',' then
                match parseEntriesL fuel r2 with
                | some (es, r3) => some (e :: es, r3)
                | none => none
              else some ([e], c :: r2)
          | [] => some ([e], [])

/-- Expect the closing brace of the object and then only whitespace. -/
def parseClose (es : List (String × String)) (r3 : List Char) :
    Option (List (String × String)) :=
  match skipWs r3 with
  | [] => none
  | c4 :: r4 => if c4 = rbrace then (if (skipWs r4).isEmpty then some es else none) else none

/-- Parse what follows the opening brace: an immediate closing brace for the
    empty object, otherwise the comma-separated entries and the closing brace. -/
def parseAfterBrace (r : List Char) : Option (List (String × String)) :=
  match skipWs r with
  | [] => none
  | c2 :: r2 =>
      if c2 = rbrace then (if (skipWs r2).isEmpty then some [] else none)
      else
        match parseEntriesL (r2.length + 1) (c2 :: r2) with
        | none => none
        | some (es, r3) => parseClose es r3

/-- Parse a flat JSON object of string fields, requiring the whole input to be
    consumed; returns the fields in textual order. -/
def parseJson (s : String) : Option (List (String × String)) :=
  match skipWs s.data with
  | [] => none
  | c :: r => if c = lbrace then parseAfterBrace r else none

/-- Characters json.dump writes verbatim inside a string literal. -/
def safeChar (c : Char) : Bool := !(c = '"') && !(c = '\\') && decide (32 ≤ c.toNat)

def safeStr (s : String) : Bool := s.data.all safeChar

def jsonSafePairs (l : List (String × String)) : Bool :=
  l.all (fun e => safeStr e.1 && safeStr e.2)

/-- google_setup.py main: setup_analytics has no handler and main has none
    either, so an analytics raise kills the script before search console and
    before print_tracking_code (outcome none); on success print_tracking_code
    writes the JSON dump unless the mapping is falsy. -/
def gsMainE (err : ApiCall → Bool) (st : RemoteState) : Option (Option String) :=
  match gsRunE err DOMAINS st with
  | (_, none) => none
  | (_, some (_, ms)) => some (if ms.isEmpty then none else some (dumpJson ms))

/-- setup_google_tools.py main: an analytics raise is caught inside
    setup_analytics, which returns None; search console still runs; the file is
    written only when measurement_ids is truthy.  Returns the written file
    content (none = no write) and the search-console call trace. -/
def toolsMainE (err : ApiCall → Bool) (scErr : String → Option String) (st : RemoteState) :
    Option String × List ApiCall :=
  match toolsRunE err DOMAINS st with
  | (_, none) => (none, (toolsScRun scErr DOMAINS).1)
  | (_, some (_, ms)) =>
      ((if ms.isEmpty then none else some (dumpJson ms)), (toolsScRun scErr DOMAINS).1)

/- List and string lemmas. -/

theorem find?_append_none {α : Type} (p : α → Bool) (l₁ l₂ : List α)
    (h : l₁.find? p = none) : (l₁ ++ l₂).find? p = l₂.find? p := by
  induction l₁ with
  | nil => rfl
  | cons x t ih =>
      cases hx : p x with
      | true => rw [List.find?_cons_of_pos _ hx] at h; exact absurd h (by simp)
      | false =>
          rw [List.find?_cons_of_neg _ (by simp [hx])] at h
          rw [List.cons_append, List.find?_cons_of_neg _ (by simp [hx])]
          exact ih h

theorem find?_append_first {α : Type} (p : α → Bool) (l₁ : List α) (x : α) (l₂ : List α)
    (h : ∀ y ∈ l₁, p y = false) (hx : p x = true) :
    (l₁ ++ x :: l₂).find? p = some x := by
  induction l₁ with
  | nil => simp [List.find?_cons, hx]
  | cons z t ih =>
      have hz := h z (List.mem_cons_self z t)
      simp only [List.cons_append, List.find?_cons, hz]
      exact ih (fun y hy => h y (List.mem_cons_of_mem z hy))

theorem find?_decomp {α : Type} {p : α → Bool} :
    ∀ {l : List α} {x : α}, l.find? p = some x →
      ∃ l₁ l₂, l = l₁ ++ x :: l₂ ∧ (∀ y ∈ l₁, p y = false) := by
  intro l
  induction l with
  | nil => intro x h; simp at h
  | cons z t ih =>
      intro x h
      cases hz : p z with
      | true =>
          rw [List.find?_cons_of_pos _ hz] at h
          cases h
          exact ⟨[], t, rfl, by simp⟩
      | false =>
          rw [List.find?_cons_of_neg _ (by simp [hz])] at h
          obtain ⟨l₁, l₂, rfl, hl⟩ := ih h
          refine ⟨z :: l₁, l₂, rfl, ?_⟩
          intro y hy
          rcases List.mem_cons.mp hy with h1 | h2
          · exact h1 ▸ hz
          · exact hl y h2

theorem replaceFirst_append_cons {α : Type} [DecidableEq α] (l₁ : List α) (x nw : α)
    (l₂ : List α) (h : x ∉ l₁) : replaceFirst (l₁ ++ x :: l₂) x nw = l₁ ++ nw :: l₂ := by
  induction l₁ with
  | nil => simp [replaceFirst]
  | cons z t ih =>
      have hz : ¬(z = x) := fun he => h (he ▸ List.mem_cons_self z t)
      have ih2 := ih (fun hm => h (List.mem_cons_of_mem z hm))
      simp only [List.cons_append, replaceFirst, if_neg hz, List.append_eq] at ih2 ⊢
      rw [ih2]

theorem map_replaceFirst {α β : Type} [DecidableEq α] (f : α → β) (l : List α) (x nw : α)
    (h : f x = f nw) : (replaceFirst l x nw).map f = l.map f := by
  induction l with
  | nil => rfl
  | cons z t ih =>
      by_cases hz : z = x
      · subst hz
        simp only [replaceFirst, if_true, eq_self_iff_true, if_pos, List.map_cons]
        rw [← h]
      · simp only [replaceFirst, if_neg hz, List.map_cons, ih]

theorem strData_append (a b : String) : (a ++ b).data = a.data ++ b.data := rfl

theorem mkString_data (s : String) : String.mk s.data = s := rfl

theorem isPrefixOf_append_self (n b : List Char) : n.isPrefixOf (n ++ b) = true := by
  induction n with
  | nil => cases b <;> rfl
  | cons c t ih => simp [List.isPrefixOf, ih]

theorem charListHas_nil_needle (l : List Char) : charListHas [] l = true := by
  cases l with
  | nil => rfl
  | cons c t => simp [charListHas, List.isPrefixOf]

theorem charListHas_append (n a b : List Char) : charListHas n (a ++ (n ++ b)) = true := by
  induction a with
  | nil =>
      rw [List.nil_append]
      cases n with
      | nil => exact charListHas_nil_needle _
      | cons c t => simp [charListHas, isPrefixOf_append_self]
  | cons c t ih =>
      simp only [List.cons_append, charListHas, List.append_eq, ih, Bool.or_true]

theorem strContains_append (a d b : String) : strContains (a ++ d ++ b) d = true := by
  unfold strContains
  have h : (a ++ d ++ b).data = a.data ++ (d.data ++ b.data) := by
    rw [strData_append, strData_append, List.append_assoc]
  rw [h]
  exact charListHas_append _ _ _

theorem listEndsWith_append (a d : List Char) : listEndsWith (a ++ d) d = true := by
  unfold listEndsWith
  rw [List.length_append, Nat.add_sub_cancel, List.drop_left]
  simp

theorem strEndsWith_append (a d : String) : strEndsWith (a ++ d) d = true := by
  unfold strEndsWith
  rw [strData_append]
  exact listEndsWith_append _ _

/- Matching properties of freshly created resources. -/

theorem toolsPropMatch_newProperty (n : Nat) (d : String) :
    toolsPropMatch d (newProperty n d) = true := by
  unfold toolsPropMatch newProperty
  exact strContains_append _ _ _

theorem toolsStreamMatch_newStream (n : Nat) (d : String) :
    toolsStreamMatch d (newStream n d) = true := by
  unfold toolsStreamMatch newStream streamUri
  exact strEndsWith_append _ _

theorem gsStreamMatch_newStream (d d' : String) (n : Nat) :
    gsStreamMatch d (newStream n d') = true := rfl

/-- A domain is gs-stable when google_setup.py's normalised match accepts the
    display name the script itself would create for the domain; this holds for
    both configured domains (they are lower-case dot-separated names). -/
def goodGs (d : String) : Bool :=
  strContains (gsNorm ("British Pennies (" ++ d ++ ")")) (gsDomainKey d)

theorem gsPropMatch_newProperty (n : Nat) (d : String) :
    gsPropMatch d (newProperty n d) = goodGs d := rfl

/- Behaviour of one setup_analytics iteration. -/

theorem streamPhase_found (sm : String → DataStream → Bool) (d : String)
    (node : PropertyNode) (st : RemoteState) (calls0 : List ApiCall) (s : DataStream)
    (h : node.streams.find? (sm d) = some s) :
    streamPhase sm d node st calls0 = { state := st, calls := calls0, mid := streamMid s } := by
  unfold streamPhase
  rw [h]

theorem streamPhase_notfound (sm : String → DataStream → Bool) (d : String)
    (node : PropertyNode) (st : RemoteState) (calls0 : List ApiCall)
    (h : node.streams.find? (sm d) = none) :
    streamPhase sm d node st calls0 =
      { state := { props := replaceFirst st.props node (grownNode node (newStream st.nextId d)),
                   nextId := st.nextId + 1 },
        calls := calls0 ++ [ApiCall.createDataStream node.prop.name (newStream st.nextId d)],
        mid := streamMid (newStream st.nextId d) } := by
  unfold streamPhase
  rw [h]

theorem domainStep_of_found (pm : String → AnalyticsProperty → Bool)
    (sm : String → DataStream → Bool) (d : String) (st : RemoteState) (node : PropertyNode)
    (h : selectProp pm d st.props = some node) :
    domainStep pm sm d st = streamPhase sm d node st [] := by
  unfold domainStep
  rw [h]

theorem domainStep_of_notfound (pm : String → AnalyticsProperty → Bool)
    (sm : String → DataStream → Bool) (d : String) (st : RemoteState)
    (h : selectProp pm d st.props = none) :
    domainStep pm sm d st =
      streamPhase sm d (newNode st.nextId d)
        { props := st.props ++ [newNode st.nextId d], nextId := st.nextId + 1 }
        [ApiCall.createProperty (newProperty st.nextId d)] := by
  unfold domainStep
  rw [h]

/-- When the property listing already contains a match, the iteration issues no
    create_property call and leaves the set of properties (as properties) as it
    was: at most a stream is appended under the matched one. -/
theorem domainStep_found_frame (pm : String → AnalyticsProperty → Bool)
    (sm : String → DataStream → Bool) (d : String) (st : RemoteState) (node : PropertyNode)
    (h : selectProp pm d st.props = some node) :
    (domainStep pm sm d st).calls.filter isCreatePropertyCall = [] ∧
    (domainStep pm sm d st).state.props.map PropertyNode.prop = st.props.map PropertyNode.prop := by
  rw [domainStep_of_found pm sm d st node h]
  cases hs : node.streams.find? (sm d) with
  | some s => rw [streamPhase_found _ _ _ _ _ _ hs]; exact ⟨rfl, rfl⟩
  | none =>
      rw [streamPhase_notfound _ _ _ _ _ hs]
      constructor
      · rfl
      · exact map_replaceFirst PropertyNode.prop st.props node _ rfl

/-- When both the property and one of its streams already match, the iteration
    issues no remote call at all, leaves the remote state untouched, and records
    the matched stream's measurement ID. -/
theorem domainStep_found_found (pm : String → AnalyticsProperty → Bool)
    (sm : String → DataStream → Bool) (d : String) (st : RemoteState) (node : PropertyNode)
    (s : DataStream) (h : selectProp pm d st.props = some node)
    (hs : node.streams.find? (sm d) = some s) :
    (domainStep pm sm d st).calls = [] ∧ (domainStep pm sm d st).state = st ∧
    (domainStep pm sm d st).mid = streamMid s := by
  rw [domainStep_of_found pm sm d st node h, streamPhase_found _ _ _ _ _ _ hs]
  exact ⟨rfl, rfl, rfl⟩

/-- After one iteration for a domain, the resulting remote state contains a
    property matching the domain whose streams contain a matching stream; hence
    a second iteration for the same domain issues no remote call.  The two
    hypotheses say that a property (resp. stream) the script itself creates for
    the domain satisfies the script's own match predicate. -/
theorem grownNode_streams_find (sm : String → DataStream → Bool) (d : String)
    (node : PropertyNode) (s : DataStream) (h : node.streams.find? (sm d) = none)
    (hs : sm d s = true) : (grownNode node s).streams.find? (sm d) = some s := by
  show (node.streams ++ [s]).find? (sm d) = some s
  rw [find?_append_none _ _ _ h, List.find?_cons_of_pos _ hs]

theorem selectProp_after_replace (pm : String → AnalyticsProperty → Bool) (d : String)
    (props : List PropertyNode) (node nw : PropertyNode)
    (h : selectProp pm d props = some node) (hprop : nw.prop = node.prop) :
    selectProp pm d (replaceFirst props node nw) = some nw := by
  have h' : props.find? (fun nd => pm d nd.prop) = some node := h
  have hpnode : pm d node.prop = true := by
    have := List.find?_some h'
    simpa using this
  obtain ⟨l₁, l₂, hdec, hl₁⟩ := find?_decomp h'
  have hnotmem : node ∉ l₁ := fun hm => by
    have := hl₁ node hm
    simp only [hpnode] at this
    exact Bool.true_eq_false.mp this
  show (replaceFirst props node nw).find? (fun nd => pm d nd.prop) = some nw
  rw [hdec, replaceFirst_append_cons l₁ node nw l₂ hnotmem]
  exact find?_append_first _ l₁ nw l₂ hl₁ (by rw [hprop]; exact hpnode)

theorem selectProp_append_new (pm : String → AnalyticsProperty → Bool) (d : String)
    (props : List PropertyNode) (nw : PropertyNode)
    (h : selectProp pm d props = none) (hnw : pm d nw.prop = true) :
    selectProp pm d (props ++ [nw]) = some nw := by
  have h' : props.find? (fun nd => pm d nd.prop) = none := h
  have hall : ∀ y ∈ props, (fun nd => pm d nd.prop) y = false := by
    intro y hy
    have := List.find?_eq_none.mp h' y hy
    simpa using this
  exact find?_append_first _ props nw [] hall hnw

theorem selectProp_replace_append_new (pm : String → AnalyticsProperty → Bool) (d : String)
    (props : List PropertyNode) (nd nw : PropertyNode)
    (h : selectProp pm d props = none) (hnd : nd ∉ props)
    (hnw : pm d nw.prop = true) :
    selectProp pm d (replaceFirst (props ++ [nd]) nd nw) = some nw := by
  rw [replaceFirst_append_cons props nd nw [] hnd]
  exact selectProp_append_new pm d props nw h hnw

theorem domainStep_twice (pm : String → AnalyticsProperty → Bool)
    (sm : String → DataStream → Bool) (d : String) (st : RemoteState)
    (hP : ∀ n, pm d (newProperty n d) = true)
    (hS : ∀ n, sm d (newStream n d) = true) :
    (domainStep pm sm d (domainStep pm sm d st).state).calls = [] := by
  cases h1 : selectProp pm d st.props with
  | some node =>
      cases h2 : node.streams.find? (sm d) with
      | some s =>
          rw [domainStep_of_found pm sm d st node h1, streamPhase_found _ _ _ _ _ _ h2]
          exact (domainStep_found_found pm sm d st node s h1 h2).1
      | none =>
          rw [domainStep_of_found pm sm d st node h1, streamPhase_notfound _ _ _ _ _ h2]
          have hsel := selectProp_after_replace pm d st.props node
            (grownNode node (newStream st.nextId d)) h1 rfl
          have hstream := grownNode_streams_find sm d node (newStream st.nextId d) h2
            (hS st.nextId)
          rw [domainStep_of_found pm sm d _ _ hsel, streamPhase_found _ _ _ _ _ _ hstream]
  | none =>
      have hemp : (newNode st.nextId d).streams.find? (sm d) = none := rfl
      rw [domainStep_of_notfound pm sm d st h1, streamPhase_notfound _ _ _ _ _ hemp]
      have h1' : st.props.find? (fun nd => pm d nd.prop) = none := h1
      have hnotmem : newNode st.nextId d ∉ st.props := fun hm => by
        have hne := List.find?_eq_none.mp h1' _ hm
        have hmatch : pm d (newNode st.nextId d).prop = true := hP st.nextId
        simp only [hmatch] at hne
        exact hne trivial
      have hsel := selectProp_replace_append_new pm d st.props (newNode st.nextId d)
        (grownNode (newNode st.nextId d) (newStream (st.nextId + 1) d)) h1 hnotmem
        (hP st.nextId)
      have hstream := grownNode_streams_find sm d (newNode st.nextId d)
        (newStream (st.nextId + 1) d) rfl (hS (st.nextId + 1))
      rw [domainStep_of_found pm sm d _ _ hsel, streamPhase_found _ _ _ _ _ _ hstream]

/- Run-level lemmas. -/

theorem runDomains_keys (pm : String → AnalyticsProperty → Bool)
    (sm : String → DataStream → Bool) :
    ∀ (ds : List String) (st : RemoteState),
      ((runDomains pm sm ds st).2.2).map Prod.fst = ds := by
  intro ds
  induction ds with
  | nil => intro st; rfl
  | cons d t ih => intro st; simp [runDomains, ih]

theorem runDomainsE_abort (pm : String → AnalyticsProperty → Bool)
    (sm : String → DataStream → Bool) (err : ApiCall → Bool) (d : String)
    (ds : List String) (st : RemoteState) (cs : List ApiCall)
    (h : domainStepE pm sm err d st = (cs, none)) :
    runDomainsE pm sm err (d :: ds) st = (cs, none) := by
  unfold runDomainsE
  rw [h]

theorem scRun_calls (classify : String → Bool) (err : String → Option String) :
    ∀ ds : List String,
      (scRun classify err ds).1 = ds.map (fun d => ApiCall.addSite (siteUrlOf d)) := by
  intro ds
  induction ds with
  | nil => rfl
  | cons d t ih => simp [scRun, ih]

theorem scRun_events (classify : String → Bool) (err : String → Option String) :
    ∀ ds : List String, (scRun classify err ds).2 = ds.map (scStep classify err) := by
  intro ds
  induction ds with
  | nil => rfl
  | cons d t ih => simp [scRun, ih]

theorem scStep_warn_iff (classify : String → Bool) (err : String → Option String)
    (d : String) (m : String) (h : err (siteUrlOf d) = some m) :
    ((scStep classify err d = ScEvent.warnedAlready (siteUrlOf d)) ↔ classify m = true) ∧
    (classify m = false → scStep classify err d = ScEvent.errorLogged (siteUrlOf d) m) := by
  constructor
  · constructor
    · intro hev
      cases hc : classify m with
      | true => rfl
      | false => simp [scStep, h, hc] at hev
    · intro hc
      simp [scStep, h, hc]
  · intro hc
    simp [scStep, h, hc]

/- JSON round-trip lemmas: on safe strings, parseJson inverts dumpJson. -/

theorem skipWs_not_ws (c : Char) (t : List Char) (h : isWsChar c = false) :
    skipWs (c :: t) = c :: t := by
  simp [skipWs, h]

theorem skipWs_ws (c : Char) (t : List Char) (h : isWsChar c = true) :
    skipWs (c :: t) = skipWs t := by
  simp [skipWs, h]

theorem safe_no_quote (s : String) (h : safeStr s = true) : ∀ c ∈ s.data, ¬(c = '"') := by
  intro c hc heq
  have hall := (List.all_eq_true.mp h) c hc
  subst heq
  simp [safeChar] at hall

theorem takeWhile_until_quote (s rest : List Char) (h : ∀ c ∈ s, ¬(c = '"')) :
    (s ++ '"' :: rest).takeWhile (fun x => x != '"') = s := by
  induction s with
  | nil => simp [List.takeWhile]
  | cons c t ih =>
      have hc : (c != '"') = true := bne_iff_ne.mpr (h c (List.mem_cons_self c t))
      have ih2 := ih (fun x hx => h x (List.mem_cons_of_mem c hx))
      simp only [List.cons_append, List.takeWhile, hc, List.append_eq] at ih2 ⊢
      rw [ih2]

theorem dropWhile_until_quote (s rest : List Char) (h : ∀ c ∈ s, ¬(c = '"')) :
    (s ++ '"' :: rest).dropWhile (fun x => x != '"') = '"' :: rest := by
  induction s with
  | nil => simp [List.dropWhile]
  | cons c t ih =>
      have hc : (c != '"') = true := bne_iff_ne.mpr (h c (List.mem_cons_self c t))
      have ih2 := ih (fun x hx => h x (List.mem_cons_of_mem c hx))
      simp only [List.cons_append, List.dropWhile, hc, List.append_eq, ih2]

theorem parseStrL_dump (s rest : List Char) (h : ∀ c ∈ s, ¬(c = '"')) :
    parseStrL ('"' :: (s ++ '"' :: rest)) = some (String.mk s, rest) := by
  simp [parseStrL, dropWhile_until_quote s rest h, takeWhile_until_quote s rest h]

theorem dumpEntryL_append (e : String × String) (z : List Char) :
    dumpEntryL e ++ z
      = '"' :: (e.1.data ++ '"' :: (':' :: ' ' :: '"' :: (e.2.data ++ '"' :: z))) := by
  simp [dumpEntryL]

theorem parseEntryL_dump (k v : String) (rest : List Char)
    (hk : safeStr k = true) (hv : safeStr v = true) :
    parseEntryL (dumpEntryL (k, v) ++ rest) = some ((k, v), rest) := by
  rw [dumpEntryL_append]
  unfold parseEntryL
  rw [skipWs_not_ws _ _ (by decide), parseStrL_dump k.data _ (safe_no_quote k hk)]
  simp only [mkString_data]
  rw [skipWs_not_ws _ _ (by decide)]
  simp only [if_pos]
  rw [skipWs_ws _ _ (by decide), skipWs_not_ws _ _ (by decide),
    parseStrL_dump v.data _ (safe_no_quote v hv)]

theorem parseEntryL_cons_ws (c : Char) (l : List Char) (h : isWsChar c = true) :
    parseEntryL (c :: l) = parseEntryL l := by
  unfold parseEntryL
  rw [skipWs_ws c l h]

theorem parseEntriesL_congr (f : Nat) (l₁ l₂ : List Char)
    (h : parseEntryL l₁ = parseEntryL l₂) :
    parseEntriesL (f + 1) l₁ = parseEntriesL (f + 1) l₂ := by
  unfold parseEntriesL
  rw [h]

theorem parseEntriesL_dump :
    ∀ (t : List (String × String)) (fuel : Nat), t ≠ [] → jsonSafePairs t = true →
      t.length ≤ fuel + 1 →
      parseEntriesL (fuel + 1) (dumpBody t ++ ['\n', rbrace]) = some (t, [rbrace]) := by
  intro t
  induction t with
  | nil => intro fuel hne; exact absurd rfl hne
  | cons e t' ih =>
      intro fuel _ hsafe hlen
      obtain ⟨k, v⟩ := e
      obtain ⟨hk, hv⟩ : safeStr k = true ∧ safeStr v = true := by
        have := (List.all_eq_true.mp hsafe) (k, v) (List.mem_cons_self (k, v) t')
        exact And.imp id id (by simpa using this)
      cases t' with
      | nil =>
          show parseEntriesL (fuel + 1) (dumpEntryL (k, v) ++ ['\n', rbrace])
              = some ([(k, v)], [rbrace])
          simp only [parseEntriesL]
          rw [parseEntryL_dump k v ['\n', rbrace] hk hv]
          rfl
      | cons e2 t'' =>
          have hbody : dumpBody ((k, v) :: e2 :: t'') ++ ['\n', rbrace]
              = dumpEntryL (k, v)
                ++ (',' :: '\n' :: ' ' :: ' ' :: (dumpBody (e2 :: t'') ++ ['\n', rbrace])) := by
            simp [dumpBody]
          rw [hbody]
          simp only [parseEntriesL]
          rw [parseEntryL_dump k v _ hk hv]
          cases fuel with
          | zero => simp at hlen
          | succ f =>
              have hcongr : parseEntriesL (f + 1)
                  ('\n' :: ' ' :: ' ' :: (dumpBody (e2 :: t'') ++ ['\n', rbrace]))
                  = parseEntriesL (f + 1) (dumpBody (e2 :: t'') ++ ['\n', rbrace]) := by
                apply parseEntriesL_congr
                rw [parseEntryL_cons_ws _ _ (by decide), parseEntryL_cons_ws _ _ (by decide),
                  parseEntryL_cons_ws _ _ (by decide)]
              have hsafe' : jsonSafePairs (e2 :: t'') = true := by
                have hall := List.all_eq_true.mp hsafe
                apply List.all_eq_true.mpr
                intro x hx
                exact hall x (List.mem_cons_of_mem (k, v) hx)
              have hlen' : (e2 :: t'').length ≤ f + 1 := by
                simp only [List.length_cons] at hlen ⊢
                omega
              have hrec := ih f (by simp) hsafe' hlen'
              show (match skipWs (',' :: '\n' :: ' ' :: ' '
                  :: (dumpBody (e2 :: t'') ++ ['\n', rbrace])) with
                | c :: r2 =>
                    if c = ',' then
                      match parseEntriesL (f + 1) r2 with
                      | some (es, r3) => some ((k, v) :: es, r3)
                      | none => none
                    else some ([(k, v)], c :: r2)
                | [] => some ([(k, v)], [])) = some ((k, v) :: e2 :: t'', [rbrace])
              rw [skipWs_not_ws _ _ (by decide)]
              simp only [hcongr, hrec, if_true, eq_self_iff_true]

theorem dumpBody_cons_shape (k v : String) (t : List (String × String)) :
    ∃ y, dumpBody ((k, v) :: t) = '"' :: y := by
  cases t with
  | nil =>
      exact ⟨k.data ++ '"' :: ':' :: ' ' :: '"' :: (v.data ++ ['"']),
        by simp [dumpBody, dumpEntryL]⟩
  | cons e2 t' =>
      refine ⟨k.data ++ '"' :: ':' :: ' ' :: '"'
        :: (v.data ++ '"' :: (',' :: '\n' :: ' ' :: ' ' :: dumpBody (e2 :: t'))), ?_⟩
      simp [dumpBody, dumpEntryL]

theorem length_le_dumpBody : ∀ t : List (String × String), t.length ≤ (dumpBody t).length := by
  intro t
  induction t with
  | nil => simp [dumpBody]
  | cons e t' ih =>
      cases t' with
      | nil => simp [dumpBody, dumpEntryL]
      | cons e2 t'' =>
          simp only [dumpBody, dumpEntryL, List.length_cons, List.length_append] at ih ⊢
          omega

theorem parseJson_cons (c : Char) (r : List Char) (hc : isWsChar c = false) (s : String)
    (hs : s.data = c :: r) :
    parseJson s = if c = lbrace then parseAfterBrace r else none := by
  unfold parseJson
  rw [hs, skipWs_not_ws c r hc]

theorem parseAfterBrace_quote (z : List Char) :
    parseAfterBrace ('\n' :: ' ' :: ' ' :: ('"' :: z)) =
      match parseEntriesL (z.length + 1) ('"' :: z) with
      | none => none
      | some (es, r3) => parseClose es r3 := by
  unfold parseAfterBrace
  rw [skipWs_ws _ _ (by decide), skipWs_ws _ _ (by decide), skipWs_ws _ _ (by decide),
    skipWs_not_ws _ _ (by decide)]
  show (if ('"' : Char) = rbrace then (if (skipWs z).isEmpty = true then some [] else none)
      else
        match parseEntriesL (z.length + 1) ('"' :: z) with
        | none => none
        | some (es, r3) => parseClose es r3)
      = match parseEntriesL (z.length + 1) ('"' :: z) with
        | none => none
        | some (es, r3) => parseClose es r3
  rw [if_neg (by decide)]

/-- On any mapping of JSON-safe strings, the reader recovers exactly the pairs
    the writer serialised. -/
theorem parseJson_dumpJson (ms : List (String × String)) (h : jsonSafePairs ms = true) :
    parseJson (dumpJson ms) = some ms := by
  cases ms with
  | nil => rfl
  | cons e t =>
      obtain ⟨k, v⟩ := e
      obtain ⟨y, hy⟩ := dumpBody_cons_shape k v t
      have hY : (dumpJson ((k, v) :: t)).data
          = lbrace :: ('\n' :: ' ' :: ' ' :: (dumpBody ((k, v) :: t) ++ ['\n', rbrace])) := by
        simp [dumpJson, dumpJsonL]
      rw [parseJson_cons lbrace _ (by decide) _ hY, if_pos rfl, hy]
      simp only [List.cons_append]
      rw [parseAfterBrace_quote (y ++ ['\n', rbrace])]
      have hlen2 : ((k, v) :: t).length ≤ (y ++ ['\n', rbrace]).length + 1 := by
        have h1 := length_le_dumpBody ((k, v) :: t)
        rw [hy] at h1
        simp only [List.length_cons, List.length_append] at h1 ⊢
        omega
      have hparse := parseEntriesL_dump ((k, v) :: t) ((y ++ ['\n', rbrace]).length)
        (by simp) h hlen2
      rw [hy] at hparse
      simp only [List.cons_append] at hparse
      rw [hparse]
      show parseClose ((k, v) :: t) [rbrace] = some ((k, v) :: t)
      unfold parseClose
      rw [skipWs_not_ws _ _ (by decide)]
      show (if rbrace = rbrace then
          (if (skipWs ([] : List Char)).isEmpty = true then some ((k, v) :: t) else none)
        else none) = some ((k, v) :: t)
      rw [if_pos rfl]
      rfl

/- Claim theorems. -/

/-- C3: exactly-one creation.  For a domain whose property listing has no match,
    setup_analytics issues exactly one create_property call (followed by exactly
    one create_data_stream call for the fresh property), and for a matched
    property whose stream listing has no match it issues exactly one
    create_data_stream call; in each case the measurement ID recorded for the
    domain is the one extracted from that creation call's response.  Stated for
    both scripts. -/
theorem claim_C3 :
    (∀ (st : RemoteState) (d : String), selectProp gsPropMatch d st.props = none →
      (gsDomainStep d st).calls
          = [ApiCall.createProperty (newProperty st.nextId d),
             ApiCall.createDataStream (newProperty st.nextId d).name
               (newStream (st.nextId + 1) d)] ∧
      (gsDomainStep d st).mid = streamMid (newStream (st.nextId + 1) d)) ∧
    (∀ (st : RemoteState) (d : String) (node : PropertyNode),
      selectProp gsPropMatch d st.props = some node →
      node.streams.find? (gsStreamMatch d) = none →
      (gsDomainStep d st).calls
          = [ApiCall.createDataStream node.prop.name (newStream st.nextId d)] ∧
      (gsDomainStep d st).mid = streamMid (newStream st.nextId d)) ∧
    (∀ (st : RemoteState) (d : String), selectProp toolsPropMatch d st.props = none →
      (toolsDomainStep d st).calls
          = [ApiCall.createProperty (newProperty st.nextId d),
             ApiCall.createDataStream (newProperty st.nextId d).name
               (newStream (st.nextId + 1) d)] ∧
      (toolsDomainStep d st).mid = streamMid (newStream (st.nextId + 1) d)) ∧
    (∀ (st : RemoteState) (d : String) (node : PropertyNode),
      selectProp toolsPropMatch d st.props = some node →
      node.streams.find? (toolsStreamMatch d) = none →
      (toolsDomainStep d st).calls
          = [ApiCall.createDataStream node.prop.name (newStream st.nextId d)] ∧
      (toolsDomainStep d st).mid = streamMid (newStream st.nextId d)) := by
  refine ⟨?_, ?_, ?_, ?_⟩
  · intro st d h
    unfold gsDomainStep
    have hemp : (newNode st.nextId d).streams.find? (gsStreamMatch d) = none := rfl
    rw [domainStep_of_notfound gsPropMatch gsStreamMatch d st h,
      streamPhase_notfound _ _ _ _ _ hemp]
    exact ⟨rfl, rfl⟩
  · intro st d node h hs
    unfold gsDomainStep
    rw [domainStep_of_found gsPropMatch gsStreamMatch d st node h,
      streamPhase_notfound _ _ _ _ _ hs]
    exact ⟨rfl, rfl⟩
  · intro st d h
    unfold toolsDomainStep
    have hemp : (newNode st.nextId d).streams.find? (toolsStreamMatch d) = none := rfl
    rw [domainStep_of_notfound toolsPropMatch toolsStreamMatch d st h,
      streamPhase_notfound _ _ _ _ _ hemp]
    exact ⟨rfl, rfl⟩
  · intro st d node h hs
    unfold toolsDomainStep
    rw [domainStep_of_found toolsPropMatch toolsStreamMatch d st node h,
      streamPhase_notfound _ _ _ _ _ hs]
    exact ⟨rfl, rfl⟩

/-- Witness for C3 at concrete inputs: an empty remote state (no match) gets
    exactly the two creation calls, and a state holding a matching property
    with no streams gets exactly the one stream creation. -/
theorem claim_C3_witness :
    (gsDomainStep "britishpennies.com" ⟨[], 0⟩).calls
        = [ApiCall.createProperty (newProperty 0 "britishpennies.com"),
           ApiCall.createDataStream (newProperty 0 "britishpennies.com").name
             (newStream 1 "britishpennies.com")] ∧
    (toolsDomainStep "britishpennies.org" ⟨[], 5⟩).calls
        = [ApiCall.createProperty (newProperty 5 "britishpennies.org"),
           ApiCall.createDataStream (newProperty 5 "britishpennies.org").name
             (newStream 6 "britishpennies.org")] ∧
    (gsDomainStep "britishpennies.com"
        ⟨[⟨⟨"properties/9", "British Pennies (britishpennies.com)"⟩, []⟩], 3⟩).calls
        = [ApiCall.createDataStream "properties/9" (newStream 3 "britishpennies.com")] :=
  ⟨(claim_C3.1 ⟨[], 0⟩ "britishpennies.com" rfl).1,
   (claim_C3.2.2.1 ⟨[], 5⟩ "britishpennies.org" rfl).1,
   (claim_C3.2.1 ⟨[⟨⟨"properties/9", "British Pennies (britishpennies.com)"⟩, []⟩], 3⟩
      "britishpennies.com" ⟨⟨"properties/9", "British Pennies (britishpennies.com)"⟩, []⟩
      (by decide) rfl).1⟩

/-- C5: credential refresh behaviour.  When the stored token is missing or not
    valid: if it is expired and carries a refresh token, get_credentials
    refreshes it without running the interactive flow and the refreshed (valid)
    credential replaces the token file; otherwise, provided a client secret is
    stored, it runs the interactive flow and the resulting credential replaces
    the token file.  Both branches write the token file. -/
theorem claim_C5 :
    ∀ (flowCred : Cred) (st : AuthState),
      (∀ c, st.tokenFile = some c → c.valid = false → c.expired = true →
        c.hasRefreshToken = true →
        getCredentials flowCred st
          = { result := .ok (refreshCred c),
              state := { st with tokenFile := some (refreshCred c) },
              interactive := false, wroteToken := true } ∧ (refreshCred c).valid = true) ∧
      (st.clientSecret = true →
        (st.tokenFile = none ∨ ∃ c, st.tokenFile = some c ∧ c.valid = false ∧
          (c.expired && c.hasRefreshToken) = false) →
        getCredentials flowCred st
          = { result := .ok flowCred, state := { st with tokenFile := some flowCred },
              interactive := true, wroteToken := true }) := by
  intro flowCred st
  constructor
  · intro c hc hv he hr
    refine ⟨?_, rfl⟩
    simp [getCredentials, hc, hv, he, hr]
  · intro hcs h
    rcases h with h | ⟨c, hc, hv, hr⟩
    · simp [getCredentials, h, hcs]
    · simp [getCredentials, hc, hv, hr, hcs]

/-- Witness for C5: a stored expired token with a refresh token is refreshed
    non-interactively and rewrites the token file; with no stored token and a
    client secret on disk, the interactive flow's credential is stored. -/
theorem claim_C5_witness :
    getCredentials ⟨true, false, false, 7⟩ ⟨some ⟨false, true, true, 1⟩, true⟩
      = { result := .ok (refreshCred ⟨false, true, true, 1⟩),
          state := { tokenFile := some (refreshCred ⟨false, true, true, 1⟩),
                     clientSecret := true },
          interactive := false, wroteToken := true } ∧
    getCredentials ⟨true, false, false, 7⟩ ⟨none, true⟩
      = { result := .ok ⟨true, false, false, 7⟩,
          state := { tokenFile := some ⟨true, false, false, 7⟩, clientSecret := true },
          interactive := true, wroteToken := true } :=
  ⟨((claim_C5 ⟨true, false, false, 7⟩ ⟨some ⟨false, true, true, 1⟩, true⟩).1
      ⟨false, true, true, 1⟩ rfl rfl rfl rfl).1,
   (claim_C5 ⟨true, false, false, 7⟩ ⟨none, true⟩).2 rfl (Or.inl rfl)⟩

/-- C6: AuthRequired failure.  When no valid or refreshable token is stored
    and no client-secret file exists, get_credentials signals the distinguished
    authRequired failure (return None in setup_google_tools.py, the
    FileNotFoundError raised by open(CREDS_FILE) in google_setup.py) without
    returning a credential, running the interactive flow, or writing the token
    file. -/
theorem claim_C6 :
    ∀ (flowCred : Cred) (st : AuthState),
      st.clientSecret = false →
      (st.tokenFile = none ∨ ∃ c, st.tokenFile = some c ∧ c.valid = false ∧
        (c.expired && c.hasRefreshToken) = false) →
      getCredentials flowCred st
        = { result := .authRequired, state := st, interactive := false,
            wroteToken := false } := by
  intro flowCred st hcs h
  rcases h with h | ⟨c, hc, hv, hr⟩
  · simp [getCredentials, h, hcs]
  · simp [getCredentials, hc, hv, hr, hcs]

/-- Witness for C6: no token file and no client secret yields authRequired. -/
theorem claim_C6_witness :
    getCredentials ⟨true, false, false, 7⟩ ⟨none, false⟩
      = { result := .authRequired, state := ⟨none, false⟩, interactive := false,
          wroteToken := false } ∧
    getCredentials ⟨true, false, false, 7⟩ ⟨some ⟨false, false, true, 2⟩, false⟩
      = { result := .authRequired, state := ⟨some ⟨false, false, true, 2⟩, false⟩,
          interactive := false, wroteToken := false } :=
  ⟨claim_C6 ⟨true, false, false, 7⟩ ⟨none, false⟩ rfl (Or.inl rfl),
   claim_C6 ⟨true, false, false, 7⟩ ⟨some ⟨false, false, true, 2⟩, false⟩ rfl
     (Or.inr ⟨⟨false, false, true, 2⟩, rfl, rfl, rfl⟩)⟩

/-- C7: substring-based error classification.  In both scripts a failing
    site-registration call is reported as an already-exists (or, in
    setup_google_tools.py, access-denied) warning exactly when the error
    message contains the corresponding substring ('already' lower-cased in
    google_setup.py; 'already exists' lower-cased or '403' raw in
    setup_google_tools.py); otherwise the raw error is logged.  The events of a
    run are exactly the per-domain classifications. -/
theorem claim_C7 :
    (∀ (err : String → Option String) (ds : List String),
      (gsScRun err ds).2 = ds.map (scStep gsScClassify err)) ∧
    (∀ (err : String → Option String) (d m : String), err (siteUrlOf d) = some m →
      ((scStep gsScClassify err d = ScEvent.warnedAlready (siteUrlOf d)) ↔
        strContains (lowerStr m) "already" = true) ∧
      (strContains (lowerStr m) "already" = false →
        scStep gsScClassify err d = ScEvent.errorLogged (siteUrlOf d) m)) ∧
    (∀ (err : String → Option String) (ds : List String),
      (toolsScRun err ds).2 = ds.map (scStep toolsScClassify err)) ∧
    (∀ (err : String → Option String) (d m : String), err (siteUrlOf d) = some m →
      ((scStep toolsScClassify err d = ScEvent.warnedAlready (siteUrlOf d)) ↔
        (strContains (lowerStr m) "already exists" || strContains m "403") = true) ∧
      ((strContains (lowerStr m) "already exists" || strContains m "403") = false →
        scStep toolsScClassify err d = ScEvent.errorLogged (siteUrlOf d) m)) := by
  refine ⟨?_, ?_, ?_, ?_⟩
  · intro err ds
    exact scRun_events gsScClassify err ds
  · intro err d m h
    exact scStep_warn_iff gsScClassify err d m h
  · intro err ds
    exact scRun_events toolsScClassify err ds
  · intro err d m h
    exact scStep_warn_iff toolsScClassify err d m h

def errAlready : String → Option String := fun _ => some "Site already exists."

def errBoom : String → Option String := fun _ => some "Server exploded"

def err403 : String → Option String := fun _ => some "HttpError 403 Forbidden"

/-- Witness for C7: an already-exists message is warned, an unrelated message
    is logged raw, and a 403 message is warned by setup_google_tools.py. -/
theorem claim_C7_witness :
    scStep gsScClassify errAlready "britishpennies.com"
      = ScEvent.warnedAlready (siteUrlOf "britishpennies.com") ∧
    scStep gsScClassify errBoom "britishpennies.com"
      = ScEvent.errorLogged (siteUrlOf "britishpennies.com") "Server exploded" ∧
    scStep toolsScClassify err403 "britishpennies.org"
      = ScEvent.warnedAlready (siteUrlOf "britishpennies.org") :=
  ⟨(claim_C7.2.1 errAlready "britishpennies.com" "Site already exists." rfl).1.mpr
      (by decide),
   (claim_C7.2.1 errBoom "britishpennies.com" "Server exploded" rfl).2 (by decide),
   (claim_C7.2.2.2 err403 "britishpennies.org" "HttpError 403 Forbidden" rfl).1.mpr
      (by decide)⟩

/-- C8: first-match tie-break.  Whenever a listing decomposes as a prefix with
    no match, a matching resource, and an arbitrary tail (which may contain
    further matches), the selection used by setup_analytics returns that first
    matching resource; no uniqueness condition on the tail is required.  Stated
    for the property selection of both scripts and both stream selections, and
    connected to the iteration that consumes the selection. -/
theorem claim_C8 :
    (∀ (d : String) (l₁ : List PropertyNode) (n : PropertyNode) (l₂ : List PropertyNode),
      gsPropMatch d n.prop = true → (∀ m ∈ l₁, gsPropMatch d m.prop = false) →
      selectProp gsPropMatch d (l₁ ++ n :: l₂) = some n) ∧
    (∀ (d : String) (l₁ : List PropertyNode) (n : PropertyNode) (l₂ : List PropertyNode),
      toolsPropMatch d n.prop = true → (∀ m ∈ l₁, toolsPropMatch d m.prop = false) →
      selectProp toolsPropMatch d (l₁ ++ n :: l₂) = some n) ∧
    (∀ (d : String) (l₁ : List DataStream) (s : DataStream) (l₂ : List DataStream),
      gsStreamMatch d s = true → (∀ x ∈ l₁, gsStreamMatch d x = false) →
      (l₁ ++ s :: l₂).find? (gsStreamMatch d) = some s) ∧
    (∀ (d : String) (l₁ : List DataStream) (s : DataStream) (l₂ : List DataStream),
      toolsStreamMatch d s = true → (∀ x ∈ l₁, toolsStreamMatch d x = false) →
      (l₁ ++ s :: l₂).find? (toolsStreamMatch d) = some s) ∧
    (∀ (d : String) (st : RemoteState) (node : PropertyNode),
      selectProp gsPropMatch d st.props = some node →
      gsDomainStep d st = streamPhase gsStreamMatch d node st []) := by
  refine ⟨?_, ?_, ?_, ?_, ?_⟩
  · intro d l₁ n l₂ hn hl
    exact find?_append_first _ l₁ n l₂ hl hn
  · intro d l₁ n l₂ hn hl
    exact find?_append_first _ l₁ n l₂ hl hn
  · intro d l₁ s l₂ hs hl
    exact find?_append_first _ l₁ s l₂ hl hs
  · intro d l₁ s l₂ hs hl
    exact find?_append_first _ l₁ s l₂ hl hs
  · intro d st node h
    unfold gsDomainStep
    exact domainStep_of_found gsPropMatch gsStreamMatch d st node h

/-- Witness for C8: with two properties both matching the domain, the first in
    listing order is selected, ignoring the later match. -/
theorem claim_C8_witness :
    selectProp toolsPropMatch "britishpennies.com"
      [⟨⟨"properties/1", "British Pennies (britishpennies.com)"⟩, []⟩,
       ⟨⟨"properties/2", "old britishpennies.com property"⟩, []⟩]
      = some ⟨⟨"properties/1", "British Pennies (britishpennies.com)"⟩, []⟩ ∧
    selectProp gsPropMatch "britishpennies.com"
      [⟨⟨"properties/1", "British Pennies (britishpennies.com)"⟩, []⟩,
       ⟨⟨"properties/2", "britishpennies com again"⟩, []⟩]
      = some ⟨⟨"properties/1", "British Pennies (britishpennies.com)"⟩, []⟩ :=
  ⟨claim_C8.2.1 "britishpennies.com" []
      ⟨⟨"properties/1", "British Pennies (britishpennies.com)"⟩, []⟩
      [⟨⟨"properties/2", "old britishpennies.com property"⟩, []⟩]
      (by decide) (by simp),
   claim_C8.1 "britishpennies.com" []
      ⟨⟨"properties/1", "British Pennies (britishpennies.com)"⟩, []⟩
      [⟨⟨"properties/2", "britishpennies com again"⟩, []⟩]
      (by decide) (by simp)⟩

/-- C9: domain-blind stream matching in google_setup.py.  For any selected
    property whose stream listing decomposes as non-web streams followed by a
    first web stream s (whose URI need have no relation to the domain),
    setup_analytics records streamMid s for the domain, issues no remote call,
    and leaves the remote state unchanged; the quantification over the domain
    shows the selection is independent of it. -/
theorem claim_C9 :
    ∀ (st : RemoteState) (d : String) (node : PropertyNode) (l₁ : List DataStream)
      (s : DataStream) (l₂ : List DataStream),
      selectProp gsPropMatch d st.props = some node →
      node.streams = l₁ ++ s :: l₂ →
      (∀ x ∈ l₁, x.webStreamData = none) →
      s.webStreamData.isSome = true →
      (gsDomainStep d st).mid = streamMid s ∧ (gsDomainStep d st).calls = [] ∧
      (gsDomainStep d st).state = st := by
  intro st d node l₁ s l₂ h hstreams hl hs
  have hfind : node.streams.find? (gsStreamMatch d) = some s := by
    rw [hstreams]
    refine find?_append_first _ l₁ s l₂ ?_ hs
    intro x hx
    simp [gsStreamMatch, hl x hx]
  have hstep := domainStep_found_found gsPropMatch gsStreamMatch d st node s h hfind
  exact ⟨hstep.2.2, hstep.1, hstep.2.1⟩

/-- Witness for C9: the first web stream's measurement ID is recorded even
    though its URI points at an unrelated site, and no call is issued. -/
theorem claim_C9_witness :
    (gsDomainStep "britishpennies.com"
        ⟨[⟨⟨"properties/4", "British Pennies (britishpennies.com)"⟩,
            [⟨"ios app", none⟩,
             ⟨"web one", some ⟨"https://unrelated.example", "G-77"⟩⟩,
             ⟨"web two", some ⟨"https://britishpennies.com", "G-88"⟩⟩]⟩], 0⟩).mid
      = streamMid ⟨"web one", some ⟨"https://unrelated.example", "G-77"⟩⟩ ∧
    (gsDomainStep "britishpennies.com"
        ⟨[⟨⟨"properties/4", "British Pennies (britishpennies.com)"⟩,
            [⟨"ios app", none⟩,
             ⟨"web one", some ⟨"https://unrelated.example", "G-77"⟩⟩,
             ⟨"web two", some ⟨"https://britishpennies.com", "G-88"⟩⟩]⟩], 0⟩).calls = [] :=
  ⟨(claim_C9 ⟨[⟨⟨"properties/4", "British Pennies (britishpennies.com)"⟩,
        [⟨"ios app", none⟩, ⟨"web one", some ⟨"https://unrelated.example", "G-77"⟩⟩,
         ⟨"web two", some ⟨"https://britishpennies.com", "G-88"⟩⟩]⟩], 0⟩
      "britishpennies.com"
      ⟨⟨"properties/4", "British Pennies (britishpennies.com)"⟩,
        [⟨"ios app", none⟩, ⟨"web one", some ⟨"https://unrelated.example", "G-77"⟩⟩,
         ⟨"web two", some ⟨"https://britishpennies.com", "G-88"⟩⟩]⟩
      [⟨"ios app", none⟩]
      ⟨"web one", some ⟨"https://unrelated.example", "G-77"⟩⟩
      [⟨"web two", some ⟨"https://britishpennies.com", "G-88"⟩⟩]
      (by decide) rfl (by decide) rfl).1,
   (claim_C9 ⟨[⟨⟨"properties/4", "British Pennies (britishpennies.com)"⟩,
        [⟨"ios app", none⟩, ⟨"web one", some ⟨"https://unrelated.example", "G-77"⟩⟩,
         ⟨"web two", some ⟨"https://britishpennies.com", "G-88"⟩⟩]⟩], 0⟩
      "britishpennies.com"
      ⟨⟨"properties/4", "British Pennies (britishpennies.com)"⟩,
        [⟨"ios app", none⟩, ⟨"web one", some ⟨"https://unrelated.example", "G-77"⟩⟩,
         ⟨"web two", some ⟨"https://britishpennies.com", "G-88"⟩⟩]⟩
      [⟨"ios app", none⟩]
      ⟨"web one", some ⟨"https://unrelated.example", "G-77"⟩⟩
      [⟨"web two", some ⟨"https://britishpennies.com", "G-88"⟩⟩]
      (by decide) rfl (by decide) rfl).2.1⟩

/-- C10: no token write when the stored token is valid.  If the token file
    loads as a valid credential, get_credentials returns exactly that
    credential, performs no write, runs no interactive flow, and leaves the
    filesystem state (token file contents included) unchanged. -/
theorem claim_C10 :
    ∀ (flowCred : Cred) (st : AuthState) (c : Cred),
      st.tokenFile = some c → c.valid = true →
      getCredentials flowCred st
        = { result := .ok c, state := st, interactive := false, wroteToken := false } := by
  intro flowCred st c hc hv
  simp [getCredentials, hc, hv]

/-- Witness for C10: a valid stored token is returned as is, with no write. -/
theorem claim_C10_witness :
    getCredentials ⟨true, false, false, 7⟩ ⟨some ⟨true, false, true, 3⟩, true⟩
      = { result := .ok ⟨true, false, true, 3⟩, state := ⟨some ⟨true, false, true, 3⟩, true⟩,
          interactive := false, wroteToken := false } :=
  claim_C10 ⟨true, false, false, 7⟩ ⟨some ⟨true, false, true, 3⟩, true⟩
    ⟨true, false, true, 3⟩ rfl rfl

/-- C1 counterexample.  The claim asserts that for a remote state already
    containing a registered search-console site for the domain, a run issues no
    creation call for that resource.  In both scripts setup_search_console
    calls sites().add unconditionally for every domain, so with the site
    already registered (dupOracle models the remote service rejecting the
    duplicate with an already-exists error) the registration call for
    britishpennies.com is nonetheless issued — the prior registration only
    downgrades the failure to a warning. -/
theorem claim_C1_counterexample :
    gsScRun (dupOracle [siteUrlOf "britishpennies.com"]) ["britishpennies.com"]
      = ([ApiCall.addSite (siteUrlOf "britishpennies.com")],
         [ScEvent.warnedAlready (siteUrlOf "britishpennies.com")]) ∧
    toolsScRun (dupOracle [siteUrlOf "britishpennies.org"]) ["britishpennies.org"]
      = ([ApiCall.addSite (siteUrlOf "britishpennies.org")],
         [ScEvent.warnedAlready (siteUrlOf "britishpennies.org")]) := by
  constructor <;> decide

/-- C1 (amended): idempotence of the analytics reconciler.  For remote states
    already containing a matching analytics property, an iteration issues no
    create_property call and preserves the property set; when additionally a
    stream matches, no call at all is issued, the remote state is untouched and
    the existing measurement ID is returned (both scripts).  Consequently a
    second iteration for the same domain issues no call whatsoever —
    unconditionally for setup_google_tools.py, and for every goodGs domain
    (which both configured domains are) for google_setup.py.  The
    search-console registration call, by contrast, is always issued; the
    already-exists rejection is merely downgraded to a warning (see the
    counterexample). -/
theorem claim_C1_amended :
    (∀ (st : RemoteState) (d : String) (node : PropertyNode),
      selectProp gsPropMatch d st.props = some node →
      (gsDomainStep d st).calls.filter isCreatePropertyCall = [] ∧
      (gsDomainStep d st).state.props.map PropertyNode.prop
        = st.props.map PropertyNode.prop) ∧
    (∀ (st : RemoteState) (d : String) (node : PropertyNode) (s : DataStream),
      selectProp gsPropMatch d st.props = some node →
      node.streams.find? (gsStreamMatch d) = some s →
      (gsDomainStep d st).calls = [] ∧ (gsDomainStep d st).state = st ∧
      (gsDomainStep d st).mid = streamMid s) ∧
    (∀ (st : RemoteState) (d : String) (node : PropertyNode),
      selectProp toolsPropMatch d st.props = some node →
      (toolsDomainStep d st).calls.filter isCreatePropertyCall = [] ∧
      (toolsDomainStep d st).state.props.map PropertyNode.prop
        = st.props.map PropertyNode.prop) ∧
    (∀ (st : RemoteState) (d : String) (node : PropertyNode) (s : DataStream),
      selectProp toolsPropMatch d st.props = some node →
      node.streams.find? (toolsStreamMatch d) = some s →
      (toolsDomainStep d st).calls = [] ∧ (toolsDomainStep d st).state = st ∧
      (toolsDomainStep d st).mid = streamMid s) ∧
    (∀ (st : RemoteState) (d : String), goodGs d = true →
      (gsDomainStep d (gsDomainStep d st).state).calls = []) ∧
    (∀ (st : RemoteState) (d : String),
      (toolsDomainStep d (toolsDomainStep d st).state).calls = []) := by
  refine ⟨?_, ?_, ?_, ?_, ?_, ?_⟩
  · intro st d node h
    exact domainStep_found_frame gsPropMatch gsStreamMatch d st node h
  · intro st d node s h hs
    exact domainStep_found_found gsPropMatch gsStreamMatch d st node s h hs
  · intro st d node h
    exact domainStep_found_frame toolsPropMatch toolsStreamMatch d st node h
  · intro st d node s h hs
    exact domainStep_found_found toolsPropMatch toolsStreamMatch d st node s h hs
  · intro st d hd
    exact domainStep_twice gsPropMatch gsStreamMatch d st
      (fun n => by rw [gsPropMatch_newProperty]; exact hd) (fun n => rfl)
  · intro st d
    exact domainStep_twice toolsPropMatch toolsStreamMatch d st
      (fun n => toolsPropMatch_newProperty n d)
      (fun n => toolsStreamMatch_newStream n d)

/-- Witness for C1 (amended): a state already holding the matching property
    with a matching stream is left untouched with no call and the stored
    measurement ID returned, and two consecutive iterations from the empty
    state issue no call on the second pass, in both scripts. -/
theorem claim_C1_witness :
    (gsDomainStep "britishpennies.com"
        ⟨[⟨⟨"properties/1", "British Pennies (britishpennies.com)"⟩,
            [⟨"ws", some ⟨"https://britishpennies.com", "G-5"⟩⟩]⟩], 9⟩).calls = [] ∧
    (gsDomainStep "britishpennies.com"
        ⟨[⟨⟨"properties/1", "British Pennies (britishpennies.com)"⟩,
            [⟨"ws", some ⟨"https://britishpennies.com", "G-5"⟩⟩]⟩], 9⟩).mid
      = streamMid ⟨"ws", some ⟨"https://britishpennies.com", "G-5"⟩⟩ ∧
    (gsDomainStep "britishpennies.com"
        (gsDomainStep "britishpennies.com" ⟨[], 0⟩).state).calls = [] ∧
    (toolsDomainStep "britishpennies.org"
        (toolsDomainStep "britishpennies.org" ⟨[], 0⟩).state).calls = [] :=
  ⟨(claim_C1_amended.2.1 ⟨[⟨⟨"properties/1", "British Pennies (britishpennies.com)"⟩,
        [⟨"ws", some ⟨"https://britishpennies.com", "G-5"⟩⟩]⟩], 9⟩
      "britishpennies.com"
      ⟨⟨"properties/1", "British Pennies (britishpennies.com)"⟩,
        [⟨"ws", some ⟨"https://britishpennies.com", "G-5"⟩⟩]⟩
      ⟨"ws", some ⟨"https://britishpennies.com", "G-5"⟩⟩ (by decide) (by decide)).1,
   (claim_C1_amended.2.1 ⟨[⟨⟨"properties/1", "British Pennies (britishpennies.com)"⟩,
        [⟨"ws", some ⟨"https://britishpennies.com", "G-5"⟩⟩]⟩], 9⟩
      "britishpennies.com"
      ⟨⟨"properties/1", "British Pennies (britishpennies.com)"⟩,
        [⟨"ws", some ⟨"https://britishpennies.com", "G-5"⟩⟩]⟩
      ⟨"ws", some ⟨"https://britishpennies.com", "G-5"⟩⟩ (by decide) (by decide)).2.2,
   claim_C1_amended.2.2.2.2.1 ⟨[], 0⟩ "britishpennies.com" (by decide),
   claim_C1_amended.2.2.2.2.2 ⟨[], 0⟩ "britishpennies.org"⟩

/-- Failure oracle for the C2 counterexample: every create_property call
    raises. -/
def c2err : ApiCall → Bool := isCreatePropertyCall

/-- C2 counterexample.  The claim asserts that a remote-call failure while
    processing one domain is caught and processing continues with the next
    domain.  With an empty remote state and create_property raising, both
    scripts' setup_analytics aborts on the first domain: the trace holds only
    britishpennies.com's failed creation call, no call for britishpennies.org
    is ever issued, and the run produces no mapping (google_setup.py lets the
    exception propagate out of setup_analytics and main; setup_google_tools.py
    catches it only at function level and returns None). -/
theorem claim_C2_counterexample :
    gsRunE c2err DOMAINS ⟨[], 0⟩
      = ([ApiCall.createProperty (newProperty 0 "britishpennies.com")], none) ∧
    toolsRunE c2err DOMAINS ⟨[], 0⟩
      = ([ApiCall.createProperty (newProperty 0 "britishpennies.com")], none) := by
  constructor <;> rfl

/-- C2 (amended): per-domain error isolation holds for the search-console
    phase — each registration is individually caught, so the add call for every
    configured domain is issued whatever errors other domains hit — but not for
    setup_analytics: a raise while processing one domain aborts the loop, so no
    later domain is processed and the accumulated mapping is discarded (the
    exception propagates out of google_setup.py; setup_google_tools.py catches
    it at function level, returns None, and main still proceeds to the
    search-console phase, writing no file). -/
theorem claim_C2_amended :
    (∀ (err : String → Option String) (ds : List String),
      (gsScRun err ds).1 = ds.map (fun d => ApiCall.addSite (siteUrlOf d))) ∧
    (∀ (err : String → Option String) (ds : List String),
      (toolsScRun err ds).1 = ds.map (fun d => ApiCall.addSite (siteUrlOf d))) ∧
    (∀ (err : ApiCall → Bool) (d : String) (ds : List String) (st : RemoteState)
        (cs : List ApiCall),
      domainStepE gsPropMatch gsStreamMatch err d st = (cs, none) →
      gsRunE err (d :: ds) st = (cs, none)) ∧
    (∀ (err : ApiCall → Bool) (d : String) (ds : List String) (st : RemoteState)
        (cs : List ApiCall),
      domainStepE toolsPropMatch toolsStreamMatch err d st = (cs, none) →
      toolsRunE err (d :: ds) st = (cs, none)) ∧
    (∀ (err : ApiCall → Bool) (scErr : String → Option String) (st : RemoteState),
      (toolsRunE err DOMAINS st).2 = none →
      toolsMainE err scErr st = (none, (toolsScRun scErr DOMAINS).1)) := by
  refine ⟨?_, ?_, ?_, ?_, ?_⟩
  · intro err ds
    exact scRun_calls gsScClassify err ds
  · intro err ds
    exact scRun_calls toolsScClassify err ds
  · intro err d ds st cs h
    exact runDomainsE_abort gsPropMatch gsStreamMatch err d ds st cs h
  · intro err d ds st cs h
    exact runDomainsE_abort toolsPropMatch toolsStreamMatch err d ds st cs h
  · intro err scErr st h
    unfold toolsMainE
    rcases hx : toolsRunE err DOMAINS st with ⟨cs, res⟩
    rw [hx] at h
    cases res with
    | none => rfl
    | some p => exact absurd h (by simp)

/-- Oracle with no search-console failures, for the C2 witness. -/
def c2scErr : String → Option String := fun _ => none

/-- Witness for C2 (amended) at concrete inputs: the search-console phase
    issues the add call for both configured domains, an analytics failure on a
    first domain aborts the loop before any later domain, and the tools main
    still runs search console while writing no file. -/
theorem claim_C2_witness :
    (gsScRun errAlready DOMAINS).1
      = DOMAINS.map (fun d => ApiCall.addSite (siteUrlOf d)) ∧
    gsRunE c2err ("britishpennies.org" :: ["britishpennies.com"]) ⟨[], 5⟩
      = ([ApiCall.createProperty (newProperty 5 "britishpennies.org")], none) ∧
    toolsMainE c2err c2scErr ⟨[], 0⟩ = (none, (toolsScRun c2scErr DOMAINS).1) :=
  ⟨claim_C2_amended.1 errAlready DOMAINS,
   claim_C2_amended.2.2.1 c2err "britishpennies.org" ["britishpennies.com"] ⟨[], 5⟩
     [ApiCall.createProperty (newProperty 5 "britishpennies.org")] rfl,
   claim_C2_amended.2.2.2.2 c2err c2scErr ⟨[], 0⟩ rfl⟩

/-- Failure oracle for the C4 counterexample: only britishpennies.org's
    create_property call (the one the run reaches with fresh id 2) raises. -/
def c4err : ApiCall → Bool :=
  fun c => decide (c = ApiCall.createProperty (newProperty 2 "britishpennies.org"))

/-- Search-console oracle with no failures, for the C4 counterexample. -/
def c4scErr : String → Option String := fun _ => none

/-- C4 counterexample.  The claim asserts the mapping holds exactly one entry
    per domain whose processing completed successfully.  Under c4err,
    britishpennies.com's processing completes successfully (first conjunct: on
    its own it yields the entry (britishpennies.com, freshMid 1)), yet in the
    full setup_google_tools.py run the later failure on britishpennies.org
    makes setup_analytics return None: the mapping is discarded — no entry for
    the successfully completed domain — and main writes no file. -/
theorem claim_C4_counterexample :
    (toolsRunE c4err ["britishpennies.com"] ⟨[], 0⟩).2
      = some (⟨[grownNode (newNode 0 "britishpennies.com")
                  (newStream 1 "britishpennies.com")], 2⟩,
              [("britishpennies.com", freshMid 1)]) ∧
    toolsRunE c4err DOMAINS ⟨[], 0⟩
      = ([ApiCall.createProperty (newProperty 0 "britishpennies.com"),
          ApiCall.createDataStream (newProperty 0 "britishpennies.com").name
            (newStream 1 "britishpennies.com"),
          ApiCall.createProperty (newProperty 2 "britishpennies.org")], none) ∧
    toolsMainE c4err c4scErr ⟨[], 0⟩ = (none, (toolsScRun c4scErr DOMAINS).1) := by
  refine ⟨?_, ?_, ?_⟩ <;> rfl

/-- C4 (amended): after an error-free analytics run the mapping holds exactly
    one entry per configured domain, in configuration order, and the persisted
    ga_measurement_ids.json content parses back to exactly that mapping (for
    JSON-safe strings, which all provider IDs are); but when any analytics call
    fails mid-run the whole mapping is discarded — neither script writes the
    file, even for domains that had completed successfully. -/
theorem claim_C4_amended :
    (∀ (ds : List String) (st : RemoteState),
      ((gsRun ds st).2.2).map Prod.fst = ds) ∧
    (∀ (ds : List String) (st : RemoteState),
      ((toolsRun ds st).2.2).map Prod.fst = ds) ∧
    (∀ ms : List (String × String), jsonSafePairs ms = true →
      parseJson (dumpJson ms) = some ms) ∧
    (∀ (err : ApiCall → Bool) (scErr : String → Option String) (st : RemoteState),
      (toolsRunE err DOMAINS st).2 = none → (toolsMainE err scErr st).1 = none) ∧
    (∀ (err : ApiCall → Bool) (st : RemoteState),
      (gsRunE err DOMAINS st).2 = none → gsMainE err st = none) := by
  refine ⟨?_, ?_, ?_, ?_, ?_⟩
  · intro ds st
    exact runDomains_keys gsPropMatch gsStreamMatch ds st
  · intro ds st
    exact runDomains_keys toolsPropMatch toolsStreamMatch ds st
  · intro ms h
    exact parseJson_dumpJson ms h
  · intro err scErr st h
    unfold toolsMainE
    rcases hx : toolsRunE err DOMAINS st with ⟨cs, res⟩
    rw [hx] at h
    cases res with
    | none => rfl
    | some p => exact absurd h (by simp)
  · intro err st h
    unfold gsMainE
    rcases hx : gsRunE err DOMAINS st with ⟨cs, res⟩
    rw [hx] at h
    cases res with
    | none => rfl
    | some p => exact absurd h (by simp)

/-- Failure oracle for the C4 witness: every create_data_stream call raises. -/
def c4werr : ApiCall → Bool := isCreateStreamCall

/-- Witness for C4 (amended): an error-free run over the configured domains
    yields exactly their keys in order, a concrete mapping round-trips through
    the JSON file content, and a run whose stream creation fails yields no
    file. -/
theorem claim_C4_witness :
    ((gsRun DOMAINS ⟨[], 0⟩).2.2).map Prod.fst = DOMAINS ∧
    parseJson (dumpJson [("britishpennies.com", "G-1"), ("britishpennies.org", "G-3")])
      = some [("britishpennies.com", "G-1"), ("britishpennies.org", "G-3")] ∧
    gsMainE c4werr ⟨[], 0⟩ = none :=
  ⟨claim_C4_amended.1 DOMAINS ⟨[], 0⟩,
   claim_C4_amended.2.2.1 [("britishpennies.com", "G-1"), ("britishpennies.org", "G-3")]
     (by decide),
   claim_C4_amended.2.2.2.2 c4werr ⟨[], 0⟩ rfl⟩

end BritishPennies
